import Mathlib

/-!
# masstree_analytics: client pipeline, completion handler and server dispatch

A shallow embedding of `src/apps/masstree_analytics/masstree_analytics.cc`.
The application header and the RPC library are not part of the sources, so
the few things the functions use from them (request-type constants, the
generator, the latency histogram, the transport) are small explicit models;
each one says so in its doc comment.  Floating point is not interpreted: the
values computed in `double` are parameters.  Code comments give the source
lines.
-/

namespace MasstreeAnalytics

/-! ## Data model -/

/-- Command-line flags read by the code (`FLAGS_num_keys`, `FLAGS_req_window`,
`FLAGS_num_server_fg_threads`). -/
structure Flags where
  num_keys : Nat
  req_window : Nat
  num_server_fg_threads : Nat
deriving DecidableEq, Repr

/-- Discriminant of a request (`ReqType::kPoint`, `ReqType::kRange`). -/
inductive ReqType where
  | kPoint
  | kRange
deriving DecidableEq, Repr

/-- The tagged union `req_t`: `point_req {key}` or `range_req {key, range}`. -/
inductive req_t where
  | point_req (key : Nat)
  | range_req (key : Nat) (range : Nat)
deriving DecidableEq, Repr

/-- The stored discriminant `req_t::req_type`. -/
def req_t.req_type : req_t → ReqType
  | .point_req _ => ReqType.kPoint
  | .range_req _ _ => ReqType.kRange

/-- The key of a request, whichever member of the union holds it. -/
def req_t.key : req_t → Nat
  | .point_req k => k
  | .range_req k _ => k

/-- Modelled from the spec: the header declaring `kAppPointReqType` is absent;
the point handler's registration key is one of two distinct request types. -/
def kAppPointReqType : Nat := 1

/-- Modelled from the spec: the header declaring `kAppRangeReqType` is absent;
the range handler's registration key is the other request type. -/
def kAppRangeReqType : Nat := 2

/-- Modelled from the spec: `sizeof(size_t)`, one machine word on the 64-bit
hosts the transport runs on. -/
def sizeof_size_t : Nat := 8

/-- Modelled from the spec: `sizeof(resp_t)`; the header is absent and the spec
fixes the Response to a single machine word. -/
def sizeof_resp_t : Nat := 8

/-- Modelled from the spec: the per-worker pseudo-random generator
(`ERpc::FastRand`, absent).  A generator state is represented by the sequence
of values it is going to return, so every deterministic generator is covered. -/
structure FastRand where
  stream : Nat → Nat

/-- Method `fastrand.next_u32()`: the next value, truncated to 32 bits, and the
advanced generator. -/
def FastRand.next_u32 (r : FastRand) : Nat × FastRand :=
  (r.stream 0 % 2 ^ 32, ⟨fun n => r.stream (n + 1)⟩)

/-- The generator state whose next draw is `v` and which then continues as `r`. -/
def FastRand.withFirst (v : Nat) (r : FastRand) : FastRand :=
  ⟨fun n => match n with
    | 0 => v
    | k + 1 => r.stream k⟩

/-- Modelled from the spec: the latency histogram (`ERpc::Latency`, absent),
kept as the values recorded since the last reset, in insertion order. -/
structure Latency where
  samples : List Nat
deriving DecidableEq, Repr

/-- Method `Latency::update(v)`: record one value. -/
def Latency.update (l : Latency) (v : Nat) : Latency := ⟨l.samples ++ [v]⟩

/-- Method `Latency::reset()`: forget every recorded value. -/
def Latency.reset (_l : Latency) : Latency := ⟨[]⟩

/-- A message buffer (`ERpc::MsgBuffer`): what its storage holds and its
data size. -/
structure MsgBuffer (α : Type) where
  buf : α
  data_size : Nat
deriving DecidableEq, Repr

/-- Modelled from the spec: `Rpc::resize_msg_buffer` (absent), the buffer-resize
primitive: the buffer keeps its storage and takes the new data size. -/
def resize_msg_buffer {α : Type} (m : MsgBuffer α) (new_data_size : Nat) : MsgBuffer α :=
  { m with data_size := new_data_size }

/-- The request handle a server handler receives (`ERpc::ReqHandle`): the
request buffer, the preallocated response buffer with its in-use mark, and
the dynamically allocated response buffer a handler may use instead.  The
request buffer holds a `req_t`, a response buffer the words of a response. -/
structure ReqHandle where
  req_msgbuf : MsgBuffer req_t
  prealloc_used : Bool
  pre_resp_msgbuf : MsgBuffer (List Nat)
  dyn_resp_msgbuf : Option (MsgBuffer (List Nat))
deriving DecidableEq, Repr

/-- One call of `enqueue_request`, as seen by the transport. -/
structure EnqueueCall where
  session_num : Nat
  req_type : Nat
  req : req_t
  tag : Nat
deriving DecidableEq, Repr

/-- Modelled from the spec: the client side of the RPC transport (`ERpc::Rpc`,
absent), instrumented to count outstanding submissions.  `outstanding` holds
the tag of every submitted request whose continuation has not run yet (one
entry per submission), `enqueued` logs every `enqueue_request` call,
`double_submits` counts the submissions made under a tag that was already
outstanding, and `responses` logs every request handle passed to
`enqueue_response`. -/
structure Rpc where
  outstanding : List Nat
  enqueued : List EnqueueCall
  double_submits : Nat
  responses : List ReqHandle

/-- Method `Rpc::enqueue_response`: the handle is queued for sending. -/
def Rpc.enqueue_response (rpc : Rpc) (req_handle : ReqHandle) : Rpc :=
  { rpc with responses := rpc.responses ++ [req_handle] }

/-- Method `Rpc::enqueue_request`: the transport accepts the submission
(returns 0), which becomes outstanding under its tag. -/
def Rpc.enqueue_request (rpc : Rpc) (session_num req_type : Nat) (req : req_t)
    (tag : Nat) : Rpc :=
  { rpc with
    outstanding := rpc.outstanding ++ [tag]
    enqueued := rpc.enqueued ++ [⟨session_num, req_type, req, tag⟩]
    double_submits := rpc.double_submits + (if tag ∈ rpc.outstanding then 1 else 0) }

/-- The `double` computations of lines 88-99, left uninterpreted.  The code
turns the elapsed cycle count into microseconds with `to_usec` (absent
library) and the clock frequency of the endpoint, multiplies by `10.0` for a
Point request or by `0.1` for a Range request, and casts to `size_t`, every
step in `double` arithmetic.  For a given endpoint the two recorded values
are functions of the cycle count: `point_sample cycles` stands for
`static_cast<size_t>(usec * 10.0)` and `range_sample cycles` for
`static_cast<size_t>(usec * 0.1)`.  No theorem depends on what they return. -/
structure DoubleCalc where
  point_sample : Nat → Nat
  range_sample : Nat → Nat

/-- The periodic report printed by `app_cont_func`: the printed percentiles are
functions of the two histograms as they are when `perc` is called. -/
structure Report where
  thread_id : Nat
  point_latency : Latency
  range_latency : Latency
deriving DecidableEq, Repr

/-- The fields of `AppContext` the client code uses.  `req_msgbuf i` is the
`req_t` stored in the i-th request buffer, `req_ts i` its issue timestamp;
`printed` collects what the worker wrote to standard output. -/
structure AppContext where
  thread_id : Nat
  rpc : Rpc
  fastrand : FastRand
  req_msgbuf : Nat → req_t
  req_ts : Nat → Nat
  num_sm_resps : Nat
  point_latency : Latency
  range_latency : Latency
  printed : List Report

/-- How a call ends: it returns with the state `s`, or a run-time assertion
fails with the state `s` reached at that point. -/
inductive Outcome (σ : Type) where
  | done (s : σ)
  | aborted (msg : String) (s : σ)

/-! ## Client: request generation and submission -/

/-- Function `generate_request` (lines 39-54): the request and the context with
the generator advanced by the two draws.  A 32-bit draw modulo the 64-bit
`FLAGS_num_keys` needs no wrap-around; `num_keys = 0` is a division by zero
in the source and is excluded where it matters. -/
def generate_request (flags : Flags) (c : AppContext) : req_t × AppContext :=
  let d1 := c.fastrand.next_u32
  let d2 := d1.2.next_u32
  if d1.1 % 100 = 0 then
    -- Generate a range request
    (req_t.range_req (d2.1 % flags.num_keys) flags.num_keys, { c with fastrand := d2.2 })
  else
    -- Generate a point request
    (req_t.point_req (d2.1 % flags.num_keys), { c with fastrand := d2.2 })

/-- Function `send_req` (lines 57-76); `tsc` is the value `rdtsc()` returns at
line 70.  The request buffers hold a `req_t` by construction (assertion of
line 61) and the transport accepts the submission (assertion of line 75). -/
def send_req (flags : Flags) (c : AppContext) (msgbuf_idx : Nat) (tsc : Nat) : AppContext :=
  let g := generate_request flags c
  let c1 := { g.2 with req_msgbuf := Function.update g.2.req_msgbuf msgbuf_idx g.1 }
  let c2 := { c1 with req_ts := Function.update c1.req_ts msgbuf_idx tsc }
  { c2 with rpc := c2.rpc.enqueue_request 0 kAppPointReqType (c2.req_msgbuf msgbuf_idx) msgbuf_idx }

/-! ## Client: completion handler -/

/-- The response handle passed to the continuation: the data size of its
response buffer (`resp_handle->get_resp_msgbuf()->get_data_size()`). -/
structure RespHandle where
  resp_data_size : Nat
deriving DecidableEq, Repr

/-- Line 88: `rdtsc() - c->req_ts[msgbuf_idx]`, a subtraction of unsigned
64-bit values. -/
def elapsed_cycles (c : AppContext) (msgbuf_idx : Nat) (tsc : Nat) : Nat :=
  (tsc % 2 ^ 64 + 2 ^ 64 - c.req_ts msgbuf_idx % 2 ^ 64) % 2 ^ 64

/-- Function `app_cont_func` (lines 78-125).  `tsc` is the `rdtsc()` reading of
line 88 and `tsc_send` the one taken inside the `send_req` of line 124; `fp`
gives the values the `double` code of lines 88-99 records.  The assertion of
line 94 holds by the type of `req_t`; `rt_assert` (line 121) ends the call
with the context reached so far.  The counter stays far below 2^64 on every
run from a fresh worker, so it is not wrapped. -/
def app_cont_func (fp : DoubleCalc) (flags : Flags) (c : AppContext) (resp_handle : RespHandle)
    (_tag : Nat) (tsc tsc_send : Nat) : Outcome AppContext :=
  let msgbuf_idx := _tag
  -- lines 88-90: `usec` is a `double` computed from the elapsed cycles; the
  -- debug assertion `usec >= 0` is about that `double` and is not modelled
  let cycles := elapsed_cycles c msgbuf_idx tsc
  let req_type := (c.req_msgbuf msgbuf_idx).req_type
  -- lines 96-100
  let c1 :=
    if req_type = ReqType.kPoint then
      { c with point_latency := c.point_latency.update (fp.point_sample cycles) }
    else
      { c with range_latency := c.range_latency.update (fp.range_sample cycles) }
  -- lines 102-116: `num_sm_resps++ == 1000000`
  let c2 := { c1 with num_sm_resps := c1.num_sm_resps + 1 }
  let c3 :=
    if c1.num_sm_resps = 1000000 then
      { c2 with
        printed := c2.printed ++ [⟨c2.thread_id, c2.point_latency, c2.range_latency⟩]
        num_sm_resps := 0
        point_latency := c2.point_latency.reset
        range_latency := c2.range_latency.reset }
    else c2
  -- lines 118-122
  if resp_handle.resp_data_size = sizeof_resp_t then
    Outcome.done (send_req flags c3 msgbuf_idx tsc_send)
  else
    Outcome.aborted "Invalid response size" c3

/-- The context `app_cont_func` has built when it reaches the size check of
line 121 (lines 88-116 done). -/
def before_size_check (fp : DoubleCalc) (c : AppContext) (tag tsc : Nat) : AppContext :=
  let cycles := elapsed_cycles c tag tsc
  let c1 :=
    if (c.req_msgbuf tag).req_type = ReqType.kPoint then
      { c with point_latency := c.point_latency.update (fp.point_sample cycles) }
    else
      { c with range_latency := c.range_latency.update (fp.range_sample cycles) }
  let c2 := { c1 with num_sm_resps := c1.num_sm_resps + 1 }
  if c1.num_sm_resps = 1000000 then
    { c2 with
      printed := c2.printed ++ [⟨c2.thread_id, c2.point_latency, c2.range_latency⟩]
      num_sm_resps := 0
      point_latency := c2.point_latency.reset
      range_latency := c2.range_latency.reset }
  else c2

/-- Number of latency values held by the two histograms of a worker. -/
def total_samples (c : AppContext) : Nat :=
  c.point_latency.samples.length + c.range_latency.samples.length

/-! ## Client: the transport delivering completions -/

/-- A completion as the transport delivers it: the tag given at submission,
the response handle, and the two clock readings `app_cont_func` takes. -/
structure Completion where
  tag : Nat
  resp_handle : RespHandle
  tsc : Nat
  tsc_send : Nat
deriving DecidableEq, Repr

/-- Modelled from the spec: the transport invokes the continuation once per
submitted request, carrying back its tag.  A completion is delivered only for
an outstanding tag; that submission stops being outstanding and
`app_cont_func` runs. -/
def deliver (fp : DoubleCalc) (flags : Flags) (c : AppContext) (ev : Completion) :
    Outcome AppContext :=
  if ev.tag ∈ c.rpc.outstanding then
    app_cont_func fp flags
      { c with rpc := { c.rpc with outstanding := c.rpc.outstanding.erase ev.tag } }
      ev.resp_handle ev.tag ev.tsc ev.tsc_send
  else
    Outcome.aborted "completion for a request that is not outstanding" c

/-- The worker processing a sequence of completions, stopping at the first
failure. -/
def run (fp : DoubleCalc) (flags : Flags) : AppContext → List Completion → Outcome AppContext
  | c, [] => Outcome.done c
  | c, ev :: evs =>
    match deliver fp flags c ev with
    | Outcome.done c1 => run fp flags c1 evs
    | Outcome.aborted msg s => Outcome.aborted msg s

/-- Line 157: `for (i = 0; i < FLAGS_req_window; i++) send_req(&c, i)`;
`tsc i` is the clock reading inside the i-th `send_req`. -/
def issue_window (flags : Flags) (c : AppContext) (tsc : Nat → Nat) : AppContext :=
  (List.range flags.req_window).foldl (fun c1 i => send_req flags c1 i (tsc i)) c

/-! ## Client worker -/

/-- What one `run_event_loop(200)` of the connection phase does to the worker:
how many session-management callbacks it runs, and the value of
`ctrl_c_pressed` the worker reads afterwards. -/
structure LoopTick where
  sm_events : Nat
  ctrl_c_pressed : Nat
deriving DecidableEq, Repr

/-- The transport calls a client worker makes, in order. -/
inductive ClientCall where
  | create_session (server_thread_id : Nat)
  | run_event_loop (timeout_ms : Nat)
  | send_req (msgbuf_idx : Nat)
deriving DecidableEq, Repr

/-- How `client_thread_func` ended: where it returned, the calls it made up to
its return, and the context at that point. -/
structure ClientExit where
  connected : Bool
  calls : List ClientCall
  c : AppContext

/-- The context a worker starts with (`AppContext c; c.thread_id = thread_id`):
counter 0, empty histograms, nothing submitted. -/
def AppContext.fresh (thread_id : Nat) (fastrand : FastRand) : AppContext :=
  { thread_id := thread_id
    rpc := ⟨[], [], 0, []⟩
    fastrand := fastrand
    req_msgbuf := fun _ => req_t.point_req 0
    req_ts := fun _ => 0
    num_sm_resps := 0
    point_latency := ⟨[]⟩
    range_latency := ⟨[]⟩
    printed := [] }

/-- Lines 149-152: `while (c.num_sm_resps != 1) { run_event_loop(200); if
(ctrl_c_pressed == 1) return; }`.  Modelled from the spec: the session
management callback (absent header) counts its invocations in
`num_sm_resps`.  `ticks n` describes the n-th iteration; the result is `none`
when `fuel` iterations do not end the loop, otherwise whether the loop was
left normally (`true`) or by the `return`, the number of iterations and the
context. -/
def connect_loop (ticks : Nat → LoopTick) : Nat → Nat → AppContext → Option (Bool × Nat × AppContext)
  | fuel, n, c =>
    if c.num_sm_resps = 1 then some (true, n, c)
    else
      match fuel with
      | 0 => none
      | fuel1 + 1 =>
        let c1 := { c with num_sm_resps := c.num_sm_resps + (ticks n).sm_events }
        if (ticks n).ctrl_c_pressed = 1 then some (false, n + 1, c1)
        else connect_loop ticks fuel1 (n + 1) c1

/-- Function `client_thread_func` (lines 127-158).  `none`: still in the
connection loop after `fuel` iterations. -/
def client_thread_func (flags : Flags) (thread_id : Nat) (fastrand : FastRand)
    (ticks : Nat → LoopTick) (tsc : Nat → Nat) (fuel : Nat) : Option ClientExit :=
  let c := AppContext.fresh thread_id fastrand
  let server_thread_id := thread_id % flags.num_server_fg_threads
  let pre := [ClientCall.create_session server_thread_id]
  match connect_loop ticks fuel 0 c with
  | none => none
  | some (false, n, c1) =>
    -- line 151: `return`
    some ⟨false, pre ++ List.replicate n (ClientCall.run_event_loop 200), c1⟩
  | some (true, n, c1) =>
    -- lines 156-157, then the function ends
    some ⟨true,
      pre ++ List.replicate n (ClientCall.run_event_loop 200)
        ++ (List.range flags.req_window).map ClientCall.send_req,
      issue_window flags c1 tsc⟩

/-- Function `server_thread_func` (lines 160-171): `while (ctrl_c_pressed == 0)
run_event_loop(200)`.  `flag n` is the value of `ctrl_c_pressed` read before
the n-th iteration; the result is the number of iterations made before the
function returns, `none` when it is still looping after `fuel` iterations. -/
def server_thread_func (flag : Nat → Nat) : Nat → Nat → Option Nat
  | fuel, n =>
    if flag n = 0 then
      match fuel with
      | 0 => none
      | fuel1 + 1 => server_thread_func flag fuel1 (n + 1)
    else some n

/-! ## Server: request handlers and their registration -/

/-- Function `point_req_handler` (lines 9-22): the handle as the handler leaves
it and the context after `enqueue_response`. -/
def point_req_handler (req_handle : ReqHandle) (c : AppContext) : ReqHandle × AppContext :=
  -- line 15-16: `req_msgbuf` is fetched and left unused
  let h1 := { req_handle with prealloc_used := true }
  let h2 := { h1 with pre_resp_msgbuf := resize_msg_buffer h1.pre_resp_msgbuf sizeof_size_t }
  (h2, { c with rpc := c.rpc.enqueue_response h2 })

/-- Function `range_req_handler` (lines 24-37). -/
def range_req_handler (req_handle : ReqHandle) (c : AppContext) : ReqHandle × AppContext :=
  -- line 30-31: `req_msgbuf` is fetched and left unused
  let h1 := { req_handle with prealloc_used := true }
  let h2 := { h1 with pre_resp_msgbuf := resize_msg_buffer h1.pre_resp_msgbuf sizeof_size_t }
  (h2, { c with rpc := c.rpc.enqueue_response h2 })

/-- Where a registered handler runs (`ERpc::ReqFuncType`). -/
inductive ReqFuncType where
  | kForeground
  | kBackground
deriving DecidableEq, Repr

/-- The two request handlers, as registered function pointers. -/
inductive Handler where
  | point_req_handler
  | range_req_handler
deriving DecidableEq, Repr

/-- A registered handler and its execution context (`ERpc::ReqFunc`). -/
structure ReqFunc where
  req_func : Handler
  req_func_type : ReqFuncType
deriving DecidableEq, Repr

/-- The handler table of the Nexus: request type and handler, in
registration order. -/
abbrev Nexus := List (Nat × ReqFunc)

/-- Method `Nexus::register_req_func`: the handler is added to the table. -/
def register_req_func (nexus : Nexus) (req_type : Nat) (f : ReqFunc) : Nexus :=
  nexus ++ [(req_type, f)]

/-- Lines 206-211 of `main`: the two registrations. -/
def main_req_funcs : Nexus :=
  register_req_func
    (register_req_func [] kAppPointReqType ⟨Handler.point_req_handler, ReqFuncType.kForeground⟩)
    kAppRangeReqType ⟨Handler.range_req_handler, ReqFuncType.kBackground⟩

/-- The handler the transport invokes for a request of type `req_type`. -/
def Nexus.lookup (nexus : Nexus) (req_type : Nat) : Option ReqFunc :=
  (nexus.find? (fun e => e.1 = req_type)).map (fun e => e.2)

/-- Calls on the ordered index, as an instrumented index records them. -/
inductive IndexCall where
  | get (key : Nat)
  | scan (start_key : Nat) (count : Nat)
deriving DecidableEq, Repr

/-- A server worker: the index `main` populated (lines 186-190), the log of
the lookups made on it since, and the worker's context.  The index is a
local of `main`; `server_thread_func` receives it in an unnamed parameter. -/
structure Server where
  index : List (Nat × Nat)
  index_calls : List IndexCall
  c : AppContext

/-- The index after lines 186-190: key `i` maps to value `i` below `num_keys`. -/
def populate (flags : Flags) : List (Nat × Nat) :=
  (List.range flags.num_keys).map (fun i => (i, i))

/-- The transport invoking the handler registered for `req_type` on a server
worker (`none`: no handler registered).  A handler is given the request
handle and the worker's context, nothing else. -/
def Server.dispatch (s : Server) (nexus : Nexus) (req_type : Nat) (req_handle : ReqHandle) :
    Option (ReqHandle × Server) :=
  match nexus.lookup req_type with
  | none => none
  | some f =>
    let r := match f.req_func with
      | Handler.point_req_handler => point_req_handler req_handle s.c
      | Handler.range_req_handler => range_req_handler req_handle s.c
    some (r.1, { s with c := r.2 })

/-! ## A concrete worker -/

/-- Example flags: 1000 keys, a window of one request, one server thread. -/
def demo_flags : Flags := ⟨1000, 1, 1⟩

/-- Example instance of the recorded values, used only to instantiate
theorems that hold for every instance; the choice is arbitrary. -/
def demo_calc : DoubleCalc := ⟨fun cycles => cycles / 200, fun cycles => cycles / 20000⟩

/-- Example client worker, right after its initialization: a
generator that always returns 1 (so every request is the Point request for
key 1), slot 0 issued at time 0, counter 0 and empty histograms. -/
def demo_worker : AppContext :=
  issue_window demo_flags (AppContext.fresh 0 ⟨fun _ => 1⟩) (fun _ => 0)

/-! ## Basic facts about `send_req` and `app_cont_func` -/

theorem generate_request_snd (flags : Flags) (c : AppContext) :
    (generate_request flags c).2
      = { c with fastrand := c.fastrand.next_u32.2.next_u32.2 } := by
  by_cases h : c.fastrand.next_u32.1 % 100 = 0 <;> simp [generate_request, h]

theorem send_req_outstanding (flags : Flags) (c : AppContext) (i tsc : Nat) :
    (send_req flags c i tsc).rpc.outstanding = c.rpc.outstanding ++ [i] := by
  simp [send_req, generate_request_snd, Rpc.enqueue_request]

theorem send_req_double_submits (flags : Flags) (c : AppContext) (i tsc : Nat) :
    (send_req flags c i tsc).rpc.double_submits
      = c.rpc.double_submits + (if i ∈ c.rpc.outstanding then 1 else 0) := by
  simp [send_req, generate_request_snd, Rpc.enqueue_request]

theorem send_req_num_sm_resps (flags : Flags) (c : AppContext) (i tsc : Nat) :
    (send_req flags c i tsc).num_sm_resps = c.num_sm_resps := by
  simp [send_req, generate_request_snd]

theorem send_req_point_latency (flags : Flags) (c : AppContext) (i tsc : Nat) :
    (send_req flags c i tsc).point_latency = c.point_latency := by
  simp [send_req, generate_request_snd]

theorem send_req_range_latency (flags : Flags) (c : AppContext) (i tsc : Nat) :
    (send_req flags c i tsc).range_latency = c.range_latency := by
  simp [send_req, generate_request_snd]

theorem send_req_printed (flags : Flags) (c : AppContext) (i tsc : Nat) :
    (send_req flags c i tsc).printed = c.printed := by
  simp [send_req, generate_request_snd]

theorem app_cont_func_eq (fp : DoubleCalc) (flags : Flags) (c : AppContext) (rh : RespHandle)
    (tag tsc tsc_send : Nat) :
    app_cont_func fp flags c rh tag tsc tsc_send
      = if rh.resp_data_size = sizeof_resp_t then
          Outcome.done (send_req flags (before_size_check fp c tag tsc) tag tsc_send)
        else Outcome.aborted "Invalid response size" (before_size_check fp c tag tsc) := rfl

theorem before_size_check_rpc (fp : DoubleCalc) (c : AppContext) (tag tsc : Nat) :
    (before_size_check fp c tag tsc).rpc = c.rpc := by
  unfold before_size_check
  dsimp only
  split <;> split <;> rfl

theorem before_size_check_num (fp : DoubleCalc) (c : AppContext) (tag tsc : Nat) :
    (before_size_check fp c tag tsc).num_sm_resps
      = if c.num_sm_resps = 1000000 then 0 else c.num_sm_resps + 1 := by
  unfold before_size_check
  dsimp only
  by_cases h1 : (c.req_msgbuf tag).req_type = ReqType.kPoint <;>
    by_cases h2 : c.num_sm_resps = 1000000 <;> simp [h1, h2]

theorem before_size_check_point (fp : DoubleCalc) (c : AppContext) (tag tsc : Nat) :
    (before_size_check fp c tag tsc).point_latency
      = if c.num_sm_resps = 1000000 then ⟨[]⟩
        else if (c.req_msgbuf tag).req_type = ReqType.kPoint then
          c.point_latency.update (fp.point_sample (elapsed_cycles c tag tsc))
        else c.point_latency := by
  unfold before_size_check
  dsimp only
  by_cases h1 : (c.req_msgbuf tag).req_type = ReqType.kPoint <;>
    by_cases h2 : c.num_sm_resps = 1000000 <;> simp [h1, h2, Latency.reset]

theorem before_size_check_range (fp : DoubleCalc) (c : AppContext) (tag tsc : Nat) :
    (before_size_check fp c tag tsc).range_latency
      = if c.num_sm_resps = 1000000 then ⟨[]⟩
        else if (c.req_msgbuf tag).req_type = ReqType.kPoint then c.range_latency
        else c.range_latency.update (fp.range_sample (elapsed_cycles c tag tsc)) := by
  unfold before_size_check
  dsimp only
  by_cases h1 : (c.req_msgbuf tag).req_type = ReqType.kPoint <;>
    by_cases h2 : c.num_sm_resps = 1000000 <;> simp [h1, h2, Latency.reset]

theorem before_size_check_printed (fp : DoubleCalc) (c : AppContext) (tag tsc : Nat) :
    (before_size_check fp c tag tsc).printed
      = if c.num_sm_resps = 1000000 then
          c.printed ++ [⟨c.thread_id,
            if (c.req_msgbuf tag).req_type = ReqType.kPoint then
              c.point_latency.update (fp.point_sample (elapsed_cycles c tag tsc))
            else c.point_latency,
            if (c.req_msgbuf tag).req_type = ReqType.kPoint then c.range_latency
            else c.range_latency.update (fp.range_sample (elapsed_cycles c tag tsc))⟩]
        else c.printed := by
  unfold before_size_check
  dsimp only
  by_cases h1 : (c.req_msgbuf tag).req_type = ReqType.kPoint <;>
    by_cases h2 : c.num_sm_resps = 1000000 <;> simp [h1, h2]

/-! ## The window of outstanding requests -/

theorem issue_upto (flags : Flags) (c : AppContext) (tsc : Nat → Nat)
    (h0 : c.rpc.outstanding = []) (n : Nat) :
    ((List.range n).foldl (fun c1 i => send_req flags c1 i (tsc i)) c).rpc.outstanding
        = List.range n ∧
    ((List.range n).foldl (fun c1 i => send_req flags c1 i (tsc i)) c).rpc.double_submits
        = c.rpc.double_submits ∧
    ((List.range n).foldl (fun c1 i => send_req flags c1 i (tsc i)) c).num_sm_resps
        = c.num_sm_resps ∧
    ((List.range n).foldl (fun c1 i => send_req flags c1 i (tsc i)) c).point_latency
        = c.point_latency ∧
    ((List.range n).foldl (fun c1 i => send_req flags c1 i (tsc i)) c).range_latency
        = c.range_latency ∧
    ((List.range n).foldl (fun c1 i => send_req flags c1 i (tsc i)) c).printed
        = c.printed := by
  induction n with
  | zero => simp [h0]
  | succ k ih =>
    obtain ⟨i1, i2, i3, i4, i5, i6⟩ := ih
    rw [List.range_succ, List.foldl_append]
    simp only [List.foldl_cons, List.foldl_nil]
    rw [send_req_outstanding, send_req_double_submits, send_req_num_sm_resps,
      send_req_point_latency, send_req_range_latency, send_req_printed, i1, i2, i3, i4, i5, i6]
    simp

theorem deliver_done (fp : DoubleCalc) (flags : Flags) (c : AppContext) (ev : Completion)
    (hin : ev.tag ∈ c.rpc.outstanding) (hsz : ev.resp_handle.resp_data_size = sizeof_resp_t) :
    deliver fp flags c ev
      = Outcome.done (send_req flags
          (before_size_check fp
            { c with rpc := { c.rpc with outstanding := c.rpc.outstanding.erase ev.tag } }
            ev.tag ev.tsc) ev.tag ev.tsc_send) := by
  simp [deliver, hin, app_cont_func_eq, hsz]

/-- One delivered completion keeps every slot of the window in flight exactly
once, re-issues only on the idle slot, and counts one completion. -/
theorem deliver_step (fp : DoubleCalc) (flags : Flags) (c : AppContext) (ev : Completion)
    (hinv : c.rpc.outstanding.Perm (List.range flags.req_window))
    (htag : ev.tag < flags.req_window)
    (hsz : ev.resp_handle.resp_data_size = sizeof_resp_t) :
    ∃ s, deliver fp flags c ev = Outcome.done s ∧
      s.rpc.outstanding.Perm (List.range flags.req_window) ∧
      s.rpc.double_submits = c.rpc.double_submits ∧
      s.num_sm_resps = (if c.num_sm_resps = 1000000 then 0 else c.num_sm_resps + 1) ∧
      (c.num_sm_resps ≠ 1000000 →
        total_samples s = total_samples c + 1 ∧ s.printed = c.printed) ∧
      (c.num_sm_resps = 1000000 →
        s.point_latency.samples = [] ∧ s.range_latency.samples = [] ∧
        s.printed.length = c.printed.length + 1) := by
  have hin : ev.tag ∈ c.rpc.outstanding := (hinv.mem_iff).mpr (List.mem_range.mpr htag)
  have hnd : c.rpc.outstanding.Nodup := (hinv.nodup_iff).mpr (List.nodup_range _)
  refine ⟨_, deliver_done fp flags c ev hin hsz, ?_, ?_, ?_, ?_, ?_⟩
  · rw [send_req_outstanding, before_size_check_rpc]
    exact (List.perm_append_comm.trans (List.perm_cons_erase hin).symm).trans hinv
  · rw [send_req_double_submits, before_size_check_rpc]
    have : ev.tag ∉ c.rpc.outstanding.erase ev.tag := by
      rw [hnd.mem_erase_iff]
      simp
    simp [this]
  · rw [send_req_num_sm_resps, before_size_check_num]
  · intro hne
    unfold total_samples
    rw [send_req_point_latency, send_req_range_latency, send_req_printed,
      before_size_check_point, before_size_check_range, before_size_check_printed]
    by_cases h1 : (c.req_msgbuf ev.tag).req_type = ReqType.kPoint
    · simp [hne, h1, Latency.update]
      omega
    · simp [hne, h1, Latency.update]
      omega
  · intro he
    rw [send_req_point_latency, send_req_range_latency, send_req_printed,
      before_size_check_point, before_size_check_range, before_size_check_printed]
    simp [he]

theorem run_append (fp : DoubleCalc) (flags : Flags) (evs1 evs2 : List Completion) :
    ∀ c s, run fp flags c evs1 = Outcome.done s →
      run fp flags c (evs1 ++ evs2) = run fp flags s evs2 := by
  induction evs1 with
  | nil =>
    intro c s h
    simp only [run] at h
    cases h
    rfl
  | cons ev rest ih =>
    intro c s h
    simp only [run, List.cons_append] at h ⊢
    cases hd : deliver fp flags c ev with
    | done c1 =>
      rw [hd] at h
      simp only at h ⊢
      exact ih c1 s h
    | aborted msg s1 =>
      rw [hd] at h
      simp at h

/-- Completions for slots of the window, with valid responses, are all
processed, and every slot stays in flight exactly once. -/
theorem run_window (fp : DoubleCalc) (flags : Flags) (evs : List Completion) :
    ∀ c : AppContext, c.rpc.outstanding.Perm (List.range flags.req_window) →
      (∀ ev ∈ evs, ev.tag < flags.req_window ∧
        ev.resp_handle.resp_data_size = sizeof_resp_t) →
      ∃ s, run fp flags c evs = Outcome.done s ∧
        s.rpc.outstanding.Perm (List.range flags.req_window) ∧
        s.rpc.double_submits = c.rpc.double_submits := by
  induction evs with
  | nil =>
    intro c hinv _
    exact ⟨c, rfl, hinv, rfl⟩
  | cons ev rest ih =>
    intro c hinv hev
    obtain ⟨htag, hsz⟩ := hev ev (List.mem_cons_self _ _)
    obtain ⟨s1, hd, hinv1, hds1, -, -, -⟩ := deliver_step fp flags c ev hinv htag hsz
    obtain ⟨s, hr, hinv2, hds2⟩ :=
      ih s1 hinv1 (fun e he => hev e (List.mem_cons_of_mem _ he))
    refine ⟨s, ?_, hinv2, hds2.trans hds1⟩
    simp only [run, hd]
    exact hr

/-- While the counter stays at or below 1,000,000 every completion adds one
value to the histograms and one to the counter, and nothing is printed. -/
theorem run_counts (fp : DoubleCalc) (flags : Flags) (evs : List Completion) :
    ∀ c : AppContext, c.rpc.outstanding.Perm (List.range flags.req_window) →
      (∀ ev ∈ evs, ev.tag < flags.req_window ∧
        ev.resp_handle.resp_data_size = sizeof_resp_t) →
      c.num_sm_resps + evs.length ≤ 1000000 →
      ∃ s, run fp flags c evs = Outcome.done s ∧
        s.rpc.outstanding.Perm (List.range flags.req_window) ∧
        s.num_sm_resps = c.num_sm_resps + evs.length ∧
        total_samples s = total_samples c + evs.length ∧
        s.printed = c.printed := by
  induction evs with
  | nil =>
    intro c hinv _ _
    exact ⟨c, rfl, hinv, rfl, rfl, rfl⟩
  | cons ev rest ih =>
    intro c hinv hev hlen
    simp only [List.length_cons] at hlen
    have hne : c.num_sm_resps ≠ 1000000 := by omega
    obtain ⟨htag, hsz⟩ := hev ev (List.mem_cons_self _ _)
    obtain ⟨s1, hd, hinv1, -, hnum, hcnt, -⟩ := deliver_step fp flags c ev hinv htag hsz
    rw [if_neg hne] at hnum
    obtain ⟨htot, hpr⟩ := hcnt hne
    obtain ⟨s, hr, hinv2, hnum2, htot2, hpr2⟩ :=
      ih s1 hinv1 (fun e he => hev e (List.mem_cons_of_mem _ he)) (by omega)
    refine ⟨s, ?_, hinv2, ?_, ?_, hpr2.trans hpr⟩
    · simp only [run, hd]
      exact hr
    · simp only [List.length_cons]
      omega
    · simp only [List.length_cons]
      omega

/-! ## Request generation -/

theorem next_u32_lt (r : FastRand) : r.next_u32.1 < 2 ^ 32 :=
  Nat.mod_lt _ (by norm_num)

theorem generate_request_req_type (flags : Flags) (c : AppContext) :
    (generate_request flags c).1.req_type
      = if c.fastrand.next_u32.1 % 100 = 0 then ReqType.kRange else ReqType.kPoint := by
  unfold generate_request
  by_cases h : c.fastrand.next_u32.1 % 100 = 0 <;> simp [h, req_t.req_type]

theorem withFirst_next_u32 (v : Nat) (r : FastRand) (hv : v < 2 ^ 32) :
    (r.withFirst v).next_u32.1 = v := by
  have hv2 : v % 2 ^ 32 = v := Nat.mod_eq_of_lt hv
  simpa [FastRand.withFirst, FastRand.next_u32] using hv2

/-- The number of 32-bit values divisible by 100. -/
theorem card_range_draws :
    ((Finset.range (2 ^ 32)).filter (fun v => v % 100 = 0)).card = 42949673 := by
  have h := Nat.count_modEq_card (b := 2 ^ 32) (r := 100) (by norm_num) 0
  rw [Nat.count_eq_card_filter_range] at h
  have e : (Finset.range (2 ^ 32)).filter (fun v => v % 100 = 0)
      = (Finset.range (2 ^ 32)).filter (fun v => v ≡ 0 [MOD 100]) := by
    apply Finset.filter_congr
    intro v _
    simp [Nat.ModEq]
  rw [e, h]
  norm_num

theorem card_point_draws_aux (n : Nat) (hn : n = 2 ^ 32) :
    ((Finset.range n).filter (fun v => ¬ v % 100 = 0)).card = 4252017623 := by
  have h := Finset.filter_card_add_filter_neg_card_eq_card
    (s := Finset.range n) (fun v => v % 100 = 0)
  have h3 := card_range_draws
  rw [← hn] at h3
  rw [h3, Finset.card_range] at h
  omega

/-- The number of 32-bit values not divisible by 100. -/
theorem card_point_draws :
    ((Finset.range (2 ^ 32)).filter (fun v => ¬ v % 100 = 0)).card = 4252017623 :=
  card_point_draws_aux (2 ^ 32) rfl

/-- C6: for `num_keys > 0` and every generator state, the request
`generate_request` returns has its key below `num_keys`, and a Range request
has its `range` field equal to `num_keys`. -/
theorem generate_request_key_in_universe (flags : Flags) (c : AppContext)
    (h : 0 < flags.num_keys) :
    (generate_request flags c).1.key < flags.num_keys ∧
    (∀ k r, (generate_request flags c).1 = req_t.range_req k r → r = flags.num_keys) := by
  unfold generate_request
  by_cases h1 : c.fastrand.next_u32.1 % 100 = 0
  · simp only [h1, if_true, req_t.key]
    refine ⟨Nat.mod_lt _ h, ?_⟩
    intro k r hkr
    cases hkr
    rfl
  · simp only [h1, if_false, req_t.key]
    refine ⟨Nat.mod_lt _ h, ?_⟩
    intro k r hkr
    cases hkr

theorem generate_request_key_in_universe_witness :
    (generate_request ⟨1000, 4, 1⟩
        (AppContext.fresh 0 ⟨fun n => 300 + 1234 * n⟩)).1.key < 1000 ∧
    (∀ k r, (generate_request ⟨1000, 4, 1⟩
        (AppContext.fresh 0 ⟨fun n => 300 + 1234 * n⟩)).1 = req_t.range_req k r → r = 1000) :=
  generate_request_key_in_universe ⟨1000, 4, 1⟩ (AppContext.fresh 0 ⟨fun n => 300 + 1234 * n⟩)
    (by decide)

/-- C7: `generate_request` returns a Range request exactly when the first
32-bit draw is divisible by 100 and a Point request otherwise; over the 2^32
values of that draw the fraction giving Range is within 0.5% of 1/100 and the
fraction giving Point within 0.5% of 99/100, the 0.5% being read as an
absolute difference or as a part of the target value. -/
theorem generate_request_mix (flags : Flags) (c : AppContext) :
    ((generate_request flags c).1.req_type = ReqType.kRange ↔ c.fastrand.next_u32.1 % 100 = 0) ∧
    ((generate_request flags c).1.req_type = ReqType.kPoint ↔ c.fastrand.next_u32.1 % 100 ≠ 0) ∧
    |((((Finset.range (2 ^ 32)).filter (fun v =>
          (generate_request flags { c with fastrand := c.fastrand.withFirst v }).1.req_type
            = ReqType.kRange)).card : ℚ) / 2 ^ 32) - 1 / 100| < 5 / 1000 ∧
    |((((Finset.range (2 ^ 32)).filter (fun v =>
          (generate_request flags { c with fastrand := c.fastrand.withFirst v }).1.req_type
            = ReqType.kPoint)).card : ℚ) / 2 ^ 32) - 99 / 100| < 5 / 1000 ∧
    |((((Finset.range (2 ^ 32)).filter (fun v =>
          (generate_request flags { c with fastrand := c.fastrand.withFirst v }).1.req_type
            = ReqType.kRange)).card : ℚ) / 2 ^ 32) - 1 / 100| < 5 / 1000 * (1 / 100) ∧
    |((((Finset.range (2 ^ 32)).filter (fun v =>
          (generate_request flags { c with fastrand := c.fastrand.withFirst v }).1.req_type
            = ReqType.kPoint)).card : ℚ) / 2 ^ 32) - 99 / 100| < 5 / 1000 * (99 / 100) := by
  have eR : (Finset.range (2 ^ 32)).filter (fun v =>
      (generate_request flags { c with fastrand := c.fastrand.withFirst v }).1.req_type
        = ReqType.kRange) = (Finset.range (2 ^ 32)).filter (fun v => v % 100 = 0) := by
    apply Finset.filter_congr
    intro v hv
    rw [generate_request_req_type, withFirst_next_u32 v _ (Finset.mem_range.mp hv)]
    by_cases h : v % 100 = 0 <;> simp [h]
  have eP : (Finset.range (2 ^ 32)).filter (fun v =>
      (generate_request flags { c with fastrand := c.fastrand.withFirst v }).1.req_type
        = ReqType.kPoint) = (Finset.range (2 ^ 32)).filter (fun v => ¬ v % 100 = 0) := by
    apply Finset.filter_congr
    intro v hv
    rw [generate_request_req_type, withFirst_next_u32 v _ (Finset.mem_range.mp hv)]
    by_cases h : v % 100 = 0 <;> simp [h]
  refine ⟨?_, ?_, ?_, ?_, ?_, ?_⟩
  · rw [generate_request_req_type]
    by_cases h : c.fastrand.next_u32.1 % 100 = 0 <;> simp [h]
  · rw [generate_request_req_type]
    by_cases h : c.fastrand.next_u32.1 % 100 = 0 <;> simp [h]
  · rw [eR, card_range_draws, abs_lt]
    constructor <;> norm_num
  · rw [eP, card_point_draws, abs_lt]
    constructor <;> norm_num
  · rw [eR, card_range_draws, abs_lt]
    constructor <;> norm_num
  · rw [eP, card_point_draws, abs_lt]
    constructor <;> norm_num

/-! ## The closed loop -/

/-- C1: with `W = req_window` slots, after the initial `send_req` on each slot
`0..W-1` and after every delivered completion (for a slot of the window, with
a valid response size) the worker is still running, exactly `W` requests are
in flight, one for each slot, and no `send_req` was made on a slot that was
already in flight. -/
theorem closed_loop_window (fp : DoubleCalc) (flags : Flags) (c0 : AppContext)
    (tsc : Nat → Nat)
    (evs : List Completion)
    (h0 : c0.rpc.outstanding = [])
    (hev : ∀ ev ∈ evs, ev.tag < flags.req_window ∧
      ev.resp_handle.resp_data_size = sizeof_resp_t) :
    ∃ s, run fp flags (issue_window flags c0 tsc) evs = Outcome.done s ∧
      s.rpc.outstanding.length = flags.req_window ∧
      s.rpc.outstanding.Perm (List.range flags.req_window) ∧
      s.rpc.outstanding.Nodup ∧
      s.rpc.double_submits = c0.rpc.double_submits := by
  obtain ⟨i1, i2, -⟩ := issue_upto flags c0 tsc h0 flags.req_window
  have hinv : (issue_window flags c0 tsc).rpc.outstanding.Perm (List.range flags.req_window) := by
    unfold issue_window
    rw [i1]
  obtain ⟨s, hr, hp, hds⟩ := run_window fp flags evs (issue_window flags c0 tsc) hinv hev
  refine ⟨s, hr, ?_, hp, (hp.nodup_iff).mpr (List.nodup_range _), ?_⟩
  · rw [hp.length_eq, List.length_range]
  · rw [hds]
    exact i2

theorem closed_loop_window_witness :
    ∃ s, run demo_calc ⟨1000, 2, 1⟩
        (issue_window ⟨1000, 2, 1⟩ (AppContext.fresh 0 ⟨fun n => n⟩) (fun _ => 0))
        [⟨1, ⟨8⟩, 5, 6⟩, ⟨0, ⟨8⟩, 7, 8⟩, ⟨1, ⟨8⟩, 9, 10⟩] = Outcome.done s ∧
      s.rpc.outstanding.length = 2 ∧
      s.rpc.outstanding.Perm (List.range 2) ∧
      s.rpc.outstanding.Nodup ∧
      s.rpc.double_submits = 0 :=
  closed_loop_window demo_calc ⟨1000, 2, 1⟩
    (AppContext.fresh 0 ⟨fun n => n⟩) (fun _ => 0)
    [⟨1, ⟨8⟩, 5, 6⟩, ⟨0, ⟨8⟩, 7, 8⟩, ⟨1, ⟨8⟩, 9, 10⟩] rfl (by simp [sizeof_resp_t])

/-! ## The reporting interval -/

/-- C2: the example worker (window 1) starts with counter 0 and empty
histograms; after exactly 1,000,000 completions with valid responses the
counter is 1,000,000, the histograms hold 1,000,000 values and nothing was
printed; the report and the reset come with completion 1,000,001.  This holds
whatever values the `double` code records. -/
theorem report_fires_one_completion_late (fp : DoubleCalc) :
    demo_worker.num_sm_resps = 0 ∧
    demo_worker.point_latency.samples = [] ∧ demo_worker.range_latency.samples = [] ∧
    (∃ s, run fp demo_flags demo_worker (List.replicate 1000000 ⟨0, ⟨8⟩, 0, 0⟩) = Outcome.done s ∧
      s.num_sm_resps = 1000000 ∧ total_samples s = 1000000 ∧ s.printed = []) ∧
    (∃ s, run fp demo_flags demo_worker (List.replicate 1000001 ⟨0, ⟨8⟩, 0, 0⟩) = Outcome.done s ∧
      s.num_sm_resps = 0 ∧ s.point_latency.samples = [] ∧ s.range_latency.samples = [] ∧
      s.printed.length = 1) := by
  obtain ⟨i1, -, i3, i4, i5, i6⟩ :=
    issue_upto demo_flags (AppContext.fresh 0 ⟨fun _ => 1⟩) (fun _ => 0) rfl 1
  have hinv : demo_worker.rpc.outstanding.Perm (List.range demo_flags.req_window) := by
    unfold demo_worker issue_window
    rw [show demo_flags.req_window = 1 from rfl, i1]
  have hnum : demo_worker.num_sm_resps = 0 := i3
  have hpt : demo_worker.point_latency.samples = [] := by
    unfold demo_worker issue_window
    rw [show demo_flags.req_window = 1 from rfl, i4]
    rfl
  have hrg : demo_worker.range_latency.samples = [] := by
    unfold demo_worker issue_window
    rw [show demo_flags.req_window = 1 from rfl, i5]
    rfl
  have htot : total_samples demo_worker = 0 := by
    unfold total_samples
    rw [hpt, hrg]
    rfl
  have hpr : demo_worker.printed = [] := i6
  have hev : ∀ ev ∈ List.replicate 1000000 (⟨0, ⟨8⟩, 0, 0⟩ : Completion),
      ev.tag < demo_flags.req_window ∧ ev.resp_handle.resp_data_size = sizeof_resp_t := by
    intro ev hm
    rw [List.eq_of_mem_replicate hm]
    exact ⟨Nat.zero_lt_one, rfl⟩
  obtain ⟨s, hr, hinv1, hn1, ht1, hp1⟩ := run_counts fp demo_flags _ _ hinv hev
    (by rw [hnum, List.length_replicate])
  rw [hnum, List.length_replicate, Nat.zero_add] at hn1
  rw [htot, List.length_replicate, Nat.zero_add] at ht1
  rw [hpr] at hp1
  refine ⟨hnum, hpt, hrg, ⟨s, hr, hn1, ht1, hp1⟩, ?_⟩
  obtain ⟨s2, hd, -, -, hn2, -, hreset⟩ :=
    deliver_step fp demo_flags s ⟨0, ⟨8⟩, 0, 0⟩ hinv1 Nat.zero_lt_one rfl
  obtain ⟨hp2, hr2, hl2⟩ := hreset hn1
  refine ⟨s2, ?_, ?_, hp2, hr2, ?_⟩
  · have e : List.replicate 1000001 (⟨0, ⟨8⟩, 0, 0⟩ : Completion)
        = List.replicate 1000000 ⟨0, ⟨8⟩, 0, 0⟩ ++ [⟨0, ⟨8⟩, 0, 0⟩] :=
      List.replicate_succ' 1000000 _
    rw [e, run_append _ _ _ _ _ _ hr]
    simp only [run, hd]
  · rw [hn2, if_pos hn1]
  · rw [hl2, hp1]
    rfl

/-! ## The response-size check -/

theorem demo_worker_slot : (demo_worker.req_msgbuf 0).req_type = ReqType.kPoint := by
  decide

/-- C3, as stated, fails, whatever values the `double` code records: on the
example worker, whose slot 0 holds a Point request and whose histograms are
empty, a response of size 0 makes `app_cont_func` abort with a point
histogram that already holds the new sample. -/
theorem bad_size_abort_is_after_update :
    ¬ ∃ fp : DoubleCalc,
      ∀ (flags : Flags) (c : AppContext) (rh : RespHandle) (tag tsc tsc_send : Nat),
        rh.resp_data_size ≠ sizeof_resp_t →
        ∃ msg s, app_cont_func fp flags c rh tag tsc tsc_send = Outcome.aborted msg s ∧
          s.point_latency = c.point_latency ∧ s.range_latency = c.range_latency := by
  rintro ⟨fp, h⟩
  obtain ⟨msg, s, he, hp, -⟩ := h demo_flags demo_worker ⟨0⟩ 0 3000 0 (by decide)
  rw [app_cont_func_eq, if_neg (by decide)] at he
  injection he with _ hs
  rw [← hs, before_size_check_point, if_neg (by decide), if_pos demo_worker_slot] at hp
  have hl := congrArg (fun l => l.samples.length) hp
  simp [Latency.update] at hl

/-- C3, amended: a response whose size is not `sizeof(resp_t)` makes
`app_cont_func` abort, but the size check comes after the measurement.  At
the point of abort exactly one sample for this completion has been inserted
into the histogram of the request's class and nothing into the other one:
either the histograms are the old ones with that sample added, or the
periodic report was due, has been printed from the histograms so extended,
and both have been reset. -/
theorem bad_size_aborts_after_recording (fp : DoubleCalc) (flags : Flags) (c : AppContext)
    (rh : RespHandle) (tag tsc tsc_send : Nat) (hsz : rh.resp_data_size ≠ sizeof_resp_t) :
    ∃ s, app_cont_func fp flags c rh tag tsc tsc_send
        = Outcome.aborted "Invalid response size" s ∧
      ((c.req_msgbuf tag).req_type = ReqType.kPoint →
        (s.point_latency
              = c.point_latency.update (fp.point_sample (elapsed_cycles c tag tsc)) ∧
            s.range_latency = c.range_latency ∧ s.printed = c.printed) ∨
        (s.printed = c.printed ++ [⟨c.thread_id,
              c.point_latency.update (fp.point_sample (elapsed_cycles c tag tsc)),
              c.range_latency⟩] ∧
            s.point_latency = ⟨[]⟩ ∧ s.range_latency = ⟨[]⟩)) ∧
      ((c.req_msgbuf tag).req_type = ReqType.kRange →
        (s.range_latency
              = c.range_latency.update (fp.range_sample (elapsed_cycles c tag tsc)) ∧
            s.point_latency = c.point_latency ∧ s.printed = c.printed) ∨
        (s.printed = c.printed ++ [⟨c.thread_id, c.point_latency,
              c.range_latency.update (fp.range_sample (elapsed_cycles c tag tsc))⟩] ∧
            s.point_latency = ⟨[]⟩ ∧ s.range_latency = ⟨[]⟩)) := by
  refine ⟨before_size_check fp c tag tsc, ?_, ?_, ?_⟩
  · rw [app_cont_func_eq, if_neg hsz]
  · intro hp
    rw [before_size_check_printed, before_size_check_point, before_size_check_range]
    by_cases he : c.num_sm_resps = 1000000
    · right
      simp [he, hp]
    · left
      simp [he, hp]
  · intro hr
    have hp : ¬ (c.req_msgbuf tag).req_type = ReqType.kPoint := by
      rw [hr]
      decide
    rw [before_size_check_printed, before_size_check_point, before_size_check_range]
    by_cases he : c.num_sm_resps = 1000000
    · right
      simp [he, hp]
    · left
      simp [he, hp]

theorem bad_size_aborts_after_recording_witness :
    ∃ s, app_cont_func demo_calc demo_flags demo_worker ⟨0⟩ 0 3000 0
        = Outcome.aborted "Invalid response size" s ∧
      ((demo_worker.req_msgbuf 0).req_type = ReqType.kPoint →
        (s.point_latency
              = demo_worker.point_latency.update
                (demo_calc.point_sample
                  (elapsed_cycles demo_worker 0 3000)) ∧
            s.range_latency = demo_worker.range_latency ∧ s.printed = demo_worker.printed) ∨
        (s.printed = demo_worker.printed ++ [⟨demo_worker.thread_id,
              demo_worker.point_latency.update
                (demo_calc.point_sample
                  (elapsed_cycles demo_worker 0 3000)),
              demo_worker.range_latency⟩] ∧
            s.point_latency = ⟨[]⟩ ∧ s.range_latency = ⟨[]⟩)) ∧
      ((demo_worker.req_msgbuf 0).req_type = ReqType.kRange →
        (s.range_latency
              = demo_worker.range_latency.update
                (demo_calc.range_sample
                  (elapsed_cycles demo_worker 0 3000)) ∧
            s.point_latency = demo_worker.point_latency ∧ s.printed = demo_worker.printed) ∨
        (s.printed = demo_worker.printed ++ [⟨demo_worker.thread_id,
              demo_worker.point_latency,
              demo_worker.range_latency.update
                (demo_calc.range_sample
                  (elapsed_cycles demo_worker 0 3000))⟩] ∧
            s.point_latency = ⟨[]⟩ ∧ s.range_latency = ⟨[]⟩)) :=
  bad_size_aborts_after_recording demo_calc demo_flags demo_worker
    ⟨0⟩ 0 3000 0 (by decide)

/-! ## Request type used for submission -/

/-- C4: a generator whose first draw is 4200 makes `generate_request` return a
Range request, which `send_req` stores in slot 0 and submits under
`kAppPointReqType`; the handler registered for that type is
`point_req_handler` (foreground), not `range_req_handler` (background), which
is registered under `kAppRangeReqType`.  Every `send_req` submits under
`kAppPointReqType`, whatever the request. -/
theorem range_request_submitted_as_point :
    (generate_request ⟨1000, 1, 1⟩
        (AppContext.fresh 0 (FastRand.withFirst 4200 ⟨fun _ => 123456⟩))).1
      = req_t.range_req 456 1000 ∧
    ((send_req ⟨1000, 1, 1⟩
        (AppContext.fresh 0 (FastRand.withFirst 4200 ⟨fun _ => 123456⟩)) 0 0).req_msgbuf
        0).req_type = ReqType.kRange ∧
    (send_req ⟨1000, 1, 1⟩
        (AppContext.fresh 0 (FastRand.withFirst 4200 ⟨fun _ => 123456⟩)) 0 0).rpc.enqueued
      = [⟨0, kAppPointReqType, req_t.range_req 456 1000, 0⟩] ∧
    main_req_funcs.lookup kAppPointReqType
      = some ⟨Handler.point_req_handler, ReqFuncType.kForeground⟩ ∧
    main_req_funcs.lookup kAppRangeReqType
      = some ⟨Handler.range_req_handler, ReqFuncType.kBackground⟩ ∧
    kAppPointReqType ≠ kAppRangeReqType ∧
    (∀ (flags : Flags) (c : AppContext) (i tsc : Nat),
      (send_req flags c i tsc).rpc.enqueued
        = c.rpc.enqueued ++ [⟨0, kAppPointReqType, (generate_request flags c).1, i⟩]) := by
  refine ⟨by decide, by decide, by decide, by decide, by decide, by decide, ?_⟩
  intro flags c i tsc
  simp [send_req, generate_request_snd, Rpc.enqueue_request]

/-! ## Server handlers -/

/-- C8, as stated, fails: on a server whose index log is empty, dispatching a
point request for key 7 (a range request from key 7 over 1000 keys) enqueues
the response and leaves the log empty, so no `get` (`scan`) was made. -/
theorem handlers_make_no_index_call :
    ¬ (∀ (s : Server) (h : ReqHandle),
        ∃ r, s.dispatch main_req_funcs kAppPointReqType h = some r ∧
          IndexCall.get h.req_msgbuf.buf.key ∈ r.2.index_calls) ∧
    ¬ (∀ (s : Server) (h : ReqHandle) (k n : Nat), h.req_msgbuf.buf = req_t.range_req k n →
        ∃ r, s.dispatch main_req_funcs kAppRangeReqType h = some r ∧
          IndexCall.scan k n ∈ r.2.index_calls) := by
  constructor
  · intro h
    obtain ⟨r, hr, hm⟩ := h ⟨populate ⟨1000, 1, 1⟩, [], AppContext.fresh 0 ⟨fun _ => 1⟩⟩
      ⟨⟨req_t.point_req 7, 24⟩, false, ⟨[], 0⟩, none⟩
    simp only [Server.dispatch, main_req_funcs, register_req_func, Nexus.lookup,
      kAppPointReqType, kAppRangeReqType] at hr
    simp at hr
    rw [← hr] at hm
    simp at hm
  · intro h
    obtain ⟨r, hr, hm⟩ := h ⟨populate ⟨1000, 1, 1⟩, [], AppContext.fresh 0 ⟨fun _ => 1⟩⟩
      ⟨⟨req_t.range_req 7 1000, 24⟩, false, ⟨[], 0⟩, none⟩ 7 1000 rfl
    simp only [Server.dispatch, main_req_funcs, register_req_func, Nexus.lookup,
      kAppPointReqType, kAppRangeReqType] at hr
    simp at hr
    rw [← hr] at hm
    simp at hm

theorem lookup_point : main_req_funcs.lookup kAppPointReqType
    = some ⟨Handler.point_req_handler, ReqFuncType.kForeground⟩ := by decide

theorem lookup_range : main_req_funcs.lookup kAppRangeReqType
    = some ⟨Handler.range_req_handler, ReqFuncType.kBackground⟩ := by decide

/-- C8, amended: neither handler consults the index.  For every server state
and every incoming request, the handler registered for point requests and
the one registered for range requests make no `get` or `scan` call and leave
the index as it is; the handle they enqueue is the incoming one with the
preallocated buffer claimed and sized, whatever the request holds. -/
theorem handlers_ignore_index (s : Server) (h : ReqHandle) :
    (∃ r, s.dispatch main_req_funcs kAppPointReqType h = some r ∧
      r.2.index_calls = s.index_calls ∧ r.2.index = s.index ∧
      r.2.c.rpc.responses = s.c.rpc.responses ++ [r.1] ∧
      r.1 = { h with prealloc_used := true,
                     pre_resp_msgbuf := ⟨h.pre_resp_msgbuf.buf, sizeof_size_t⟩ }) ∧
    (∃ r, s.dispatch main_req_funcs kAppRangeReqType h = some r ∧
      r.2.index_calls = s.index_calls ∧ r.2.index = s.index ∧
      r.2.c.rpc.responses = s.c.rpc.responses ++ [r.1] ∧
      r.1 = { h with prealloc_used := true,
                     pre_resp_msgbuf := ⟨h.pre_resp_msgbuf.buf, sizeof_size_t⟩ }) := by
  constructor
  · refine ⟨((point_req_handler h s.c).1, { s with c := (point_req_handler h s.c).2 }), ?_, ?_⟩
    · unfold Server.dispatch
      rw [lookup_point]
    · exact ⟨rfl, rfl, rfl, rfl⟩
  · refine ⟨((range_req_handler h s.c).1, { s with c := (range_req_handler h s.c).2 }), ?_, ?_⟩
    · unfold Server.dispatch
      rw [lookup_range]
    · exact ⟨rfl, rfl, rfl, rfl⟩

/-- C9: for every incoming request handle and worker context, each of
`point_req_handler` and `range_req_handler` marks the preallocated response
buffer as used, gives it the data size `sizeof(size_t)` (the fixed Response
size, one machine word) while keeping its storage, leaves the request buffer
and the dynamic response buffer alone, and enqueues exactly one response,
for that handle. -/
theorem handlers_use_preallocated_response (h : ReqHandle) (c : AppContext) :
    ((point_req_handler h c).1.prealloc_used = true ∧
      (point_req_handler h c).1.pre_resp_msgbuf.data_size = sizeof_size_t ∧
      (point_req_handler h c).1.pre_resp_msgbuf.buf = h.pre_resp_msgbuf.buf ∧
      (point_req_handler h c).1.dyn_resp_msgbuf = h.dyn_resp_msgbuf ∧
      (point_req_handler h c).1.req_msgbuf = h.req_msgbuf ∧
      (point_req_handler h c).2.rpc.responses
        = c.rpc.responses ++ [(point_req_handler h c).1]) ∧
    ((range_req_handler h c).1.prealloc_used = true ∧
      (range_req_handler h c).1.pre_resp_msgbuf.data_size = sizeof_size_t ∧
      (range_req_handler h c).1.pre_resp_msgbuf.buf = h.pre_resp_msgbuf.buf ∧
      (range_req_handler h c).1.dyn_resp_msgbuf = h.dyn_resp_msgbuf ∧
      (range_req_handler h c).1.req_msgbuf = h.req_msgbuf ∧
      (range_req_handler h c).2.rpc.responses
        = c.rpc.responses ++ [(range_req_handler h c).1]) ∧
    sizeof_size_t = sizeof_resp_t :=
  ⟨⟨rfl, rfl, rfl, rfl, rfl, rfl⟩, ⟨rfl, rfl, rfl, rfl, rfl, rfl⟩, rfl⟩

/-! ## Worker lifetime -/

theorem server_thread_func_loops (fuel : Nat) :
    ∀ n, server_thread_func (fun _ => 0) fuel n = none := by
  induction fuel with
  | zero =>
    intro n
    simp [server_thread_func]
  | succ k ih =>
    intro n
    simp [server_thread_func, ih]

/-- C10: when the first event-loop iteration connects the session and the
shutdown flag is never set, `client_thread_func` with window 2 returns right
after the two `send_req` calls: it has run the event loop once, before
issuing the window, and never after.  Under the same flag
`server_thread_func` does not return. -/
theorem client_returns_after_issuing_window :
    (∀ fuel, ∃ e,
      client_thread_func ⟨1000, 2, 1⟩ 0 ⟨fun _ => 1⟩ (fun _ => ⟨1, 0⟩) (fun _ => 0) (fuel + 1)
        = some e ∧
      e.connected = true ∧
      e.calls = [ClientCall.create_session 0, ClientCall.run_event_loop 200,
        ClientCall.send_req 0, ClientCall.send_req 1] ∧
      e.c.rpc.outstanding = [0, 1]) ∧
    (∀ fuel, server_thread_func (fun _ => 0) fuel 0 = none) := by
  constructor
  · intro fuel
    refine ⟨⟨true, [ClientCall.create_session 0, ClientCall.run_event_loop 200,
        ClientCall.send_req 0, ClientCall.send_req 1],
      issue_window ⟨1000, 2, 1⟩
        { AppContext.fresh 0 ⟨fun _ => 1⟩ with num_sm_resps := 1 } (fun _ => 0)⟩, ?_, ?_⟩
    · have hc : connect_loop (fun _ => ⟨1, 0⟩) (fuel + 1) 0 (AppContext.fresh 0 ⟨fun _ => 1⟩)
          = some (true, 1, { AppContext.fresh 0 ⟨fun _ => 1⟩ with num_sm_resps := 1 }) := by
        cases fuel <;> simp [connect_loop, AppContext.fresh]
      unfold client_thread_func
      simp only [hc]
      rfl
    · refine ⟨rfl, rfl, ?_⟩
      exact (issue_upto ⟨1000, 2, 1⟩ _ (fun _ => 0) rfl 2).1
  · intro fuel
    exact server_thread_func_loops fuel 0

end MasstreeAnalytics
